import Mathlib

/-!
Verification of `plugins/module_utils/robot.py` (Hetzner Robot API client
module utils): the error formatter, the JSON request executor, and the
retry-until-done poller, embedded shallowly in Lean.

Modelling conventions:
* Python dict/JSON values appearing in error payload fields are modelled by
  the inductive `PyVal` (strings, ints, nested lists).
* Python string conversion `str()` / `repr()` as used by `'{0}'.format(...)`
  on the output of `_format_list` is modelled by `pyFmtStr` / `pyFmtRepr`;
  `repr` of a string is modelled as wrapping in single quotes (the strings
  in the API payloads contain no characters needing escapes).
* The HTTP transport is an explicit input: `OpenUrlResult` enumerates the
  three ways `open_url` can come back (normal response, `HTTPError` with a
  status and a possibly unreadable body, any other exception), and the body
  is `Body` (empty / undecodable / parsed JSON object).
* Failures (`PluginException` / `module.fail_json`) are the error side of
  an `Except`, tagged with the failure taxonomy of the spec
  (TransportFailure / EmptyResponse / MalformedResponse / ApiFailure).
* Wall-clock time in the poller is modelled in exact integer seconds
  (`Int`); `time.time()`/`time.sleep` behaviour is captured by explicit
  state passing of the elapsed time, with per-request durations supplied
  as an input sequence. All scenarios in the spec use whole seconds, on
  which Python float arithmetic is exact.
-/

/-- Values that can sit in the `missing` / `invalid` fields of an API error
payload: strings, integers, or (nested) lists thereof. -/
inductive PyVal where
  | str : String → PyVal
  | int : Int → PyVal
  | list : List PyVal → PyVal

/-- Python truthiness of `error.get(field)` for an optional payload field:
`None` (absent), `''`, `0` and `[]` are falsy, everything else truthy. -/
def pyTruthy : Option PyVal → Bool
  | none => false
  | some (PyVal.str s) => !(s == "")
  | some (PyVal.int n) => !(n == 0)
  | some (PyVal.list xs) => !xs.isEmpty

mutual

/-- Python `str()` of the result of `_format_list` (source line 38-41):
a native string prints as itself, a list prints bracketed with `repr` of
each element, comma-separated. -/
def pyFmtStr : PyVal → String
  | PyVal.str s => s
  | PyVal.int n => toString n
  | PyVal.list xs => "[" ++ pyFmtJoin xs ++ "]"

/-- Python `repr()` of an element of the result of `_format_list`: every
non-list was already converted by `to_native` to a string, so it prints
single-quoted; a nested list prints bracketed. -/
def pyFmtRepr : PyVal → String
  | PyVal.str s => "'" ++ s ++ "'"
  | PyVal.int n => "'" ++ toString n ++ "'"
  | PyVal.list xs => "[" ++ pyFmtJoin xs ++ "]"

/-- Comma-separated join of `repr`s, as Python's list printing does. -/
def pyFmtJoin : List PyVal → String
  | [] => ""
  | [x] => pyFmtRepr x
  | x :: y :: xs => pyFmtRepr x ++ ", " ++ pyFmtJoin (y :: xs)

end

/-- A structured API error object, source of truth: the `error` member of a
decoded response (robot.py accesses `error['status']`, `error['code']`,
`error['message']` unconditionally and the four optional fields via
`error.get(...)`). `none` models an absent key. -/
structure ApiError where
  status : Int
  code : String
  message : String
  missing : Option PyVal
  invalid : Option PyVal
  max_request : Option Int
  interval : Option Int

/-- Embedding of `format_error_msg` (robot.py lines 44-59): base message
`'Request failed: {status} {code} ({message})'`, then the `missing` and
`invalid` clauses gated on Python truthiness of `error.get(...)`, then the
`max_request` and `interval` clauses gated on `error.get(...) is not None`. -/
def format_error_msg (error : ApiError) : String :=
  let msg := "Request failed: " ++ toString error.status ++ " " ++ error.code
    ++ " (" ++ error.message ++ ")"
  let msg := if pyTruthy error.missing then
      msg ++ (". Missing input parameters: " ++ pyFmtStr (error.missing.getD (PyVal.list [])))
    else msg
  let msg := if pyTruthy error.invalid then
      msg ++ (". Invalid input parameters: " ++ pyFmtStr (error.invalid.getD (PyVal.list [])))
    else msg
  let msg := if error.max_request.isSome then
      msg ++ (". Maximum allowed requests: " ++ toString (error.max_request.getD 0))
    else msg
  let msg := if error.interval.isSome then
      msg ++ (". Time interval in seconds: " ++ toString (error.interval.getD 0))
    else msg
  msg

/-- Embedding of `get_x_www_form_urlenconded_dict_from_list` (robot.py
lines 30-35); the Python `len(values) == 1` test is the singleton pattern,
and the dict built from distinct keys is an ordered association list. -/
def get_x_www_form_urlenconded_dict_from_list {α : Type} (key : String) (values : List α) :
    List (String × α) :=
  match values with
  | [x] => [(key ++ "[]", x)]
  | _ => values.enum.map (fun p => (key ++ "[" ++ toString p.1 ++ "]", p.2))

/-- A decoded JSON response object: robot.py only inspects whether the key
`'error'` is present (and then its subfields); the rest of the payload is
opaque and represented by a tag so that distinct bodies stay distinct. -/
structure ParsedBody where
  error : Option ApiError
  payload : Nat

/-- The response body as the executor sees it after reading: empty
(`b''`, falsy), undecodable (`json.loads` raises `ValueError`), or a
decoded JSON object. -/
inductive Body where
  | empty : Body
  | malformed : Body
  | parsed : ParsedBody → Body

/-- Outcome of one call to `open_url` (robot.py lines 81-102): a normal
response with status and body; an `HTTPError` carrying a status and a body
that may fail to read (`e.read()` raising `AttributeError` gives `b''`,
modelled by `none`); or any other exception with its message. -/
inductive OpenUrlResult where
  | success : Int → Body → OpenUrlResult
  | httpError : Int → Option Body → OpenUrlResult
  | failure : String → OpenUrlResult

/-- Failure taxonomy of the executor and poller, carrying the same data the
exception messages / `fail_json` calls carry in robot.py. -/
inductive FailureKind where
  | transportFailure : String → String → FailureKind
  | emptyResponse : String → Int → FailureKind
  | malformedResponse : String → FailureKind
  | apiFailure : String → ApiError → FailureKind

/-- What one request returns on the happy paths: `(result, error_code)`,
i.e. `(None, None)` for an accepted empty body, `(result, code)` for an
accepted API error, `(result, None)` for plain success. -/
def FetchOutcome : Type := Option ParsedBody × Option String

/-- Common tail of both executors (robot.py lines 104-118 and 140-154):
the empty-body check, the JSON decode, and the `error` member dispatch.
The Python guard `if accept_errors:` (truthiness) followed by
`if code in accept_errors:` collapses to the membership test alone, since
membership in an empty list is false. -/
def handle_content (url : String) (status : Int) (content : Body)
    (accept_errors : Option (List String)) (allow_empty_result : Bool)
    (allowed_empty_result_status_codes : List Int) :
    Except FailureKind FetchOutcome :=
  match content with
  | Body.empty =>
    if allow_empty_result = true ∧ status ∈ allowed_empty_result_status_codes then
      Except.ok (none, none)
    else
      Except.error (FailureKind.emptyResponse url status)
  | Body.malformed => Except.error (FailureKind.malformedResponse url)
  | Body.parsed result =>
    match result.error with
    | some err =>
      match accept_errors with
      | some codes =>
        if err.code ∈ codes then
          Except.ok (some result, some err.code)
        else
          Except.error (FailureKind.apiFailure (format_error_msg err) err)
      | none => Except.error (FailureKind.apiFailure (format_error_msg err) err)
    | none => Except.ok (some result, none)

/-- Embedding of `plugin_open_url_json` (robot.py lines 68-118), with the
transport interaction an explicit input. A readable `HTTPError` body flows
into the same path as a normal response; an unreadable one becomes `b''`;
any other exception raises the transport failure for this URL. -/
def plugin_open_url_json (url : String) (response : OpenUrlResult)
    (accept_errors : Option (List String)) (allow_empty_result : Bool)
    (allowed_empty_result_status_codes : List Int) :
    Except FailureKind FetchOutcome :=
  match response with
  | OpenUrlResult.success status content =>
    handle_content url status content accept_errors allow_empty_result
      allowed_empty_result_status_codes
  | OpenUrlResult.httpError status content =>
    handle_content url status (content.getD Body.empty) accept_errors allow_empty_result
      allowed_empty_result_status_codes
  | OpenUrlResult.failure cause =>
    Except.error (FailureKind.transportFailure url cause)

/-- The `(resp, info)` pair `fetch_url` hands back (robot.py lines
130-138): `resp` is the readable response body when there is one (`none`
models both `resp is None` and a closed response), `info` always carries
the status and possibly a `body` entry used as fallback content. -/
structure FetchInfo where
  status : Int
  body : Option Body

/-- Embedding of `fetch_url_json` (robot.py lines 121-154): content comes
from the response if readable, else from `info['body']` (possibly absent,
i.e. `None`, which is falsy like `b''`); the status always comes from
`info`; the rest is the shared tail. -/
def fetch_url_json (url : String) (resp : Option Body) (info : FetchInfo)
    (accept_errors : Option (List String)) (allow_empty_result : Bool)
    (allowed_empty_result_status_codes : List Int) :
    Except FailureKind FetchOutcome :=
  let content : Option Body :=
    match resp with
    | some b => some b
    | none => info.body
  handle_content url info.status (content.getD Body.empty) accept_errors
    allow_empty_result allowed_empty_result_status_codes

/-- Python `min` on two values (first wins ties). -/
def pyMin (a b : Int) : Int := if a ≤ b then a else b

/-- Python `max` on two values (first wins ties). -/
def pyMax (a b : Int) : Int := if b ≤ a then a else b

/-- How one run of the poller ends: predicate satisfied (returning the
outcome), `CheckDoneTimeoutException(result, error)`, or a propagated
request failure. -/
inductive PollResult where
  | done : FetchOutcome → PollResult
  | timeout : FetchOutcome → PollResult
  | failed : FailureKind → PollResult

/-- Observable trace of one poller run: how it ended, the elapsed time at
which each request was issued (in order), and the argument of each
`time.sleep` call (in order). -/
structure PollTrace where
  result : PollResult
  requestTimes : List Int
  sleeps : List Int

/-- The `while True:` loop of `fetch_url_json_with_retries` (robot.py
lines 180-188), with explicit time state. `now` is the elapsed time since
`start_time` when the iteration begins; `n` indexes the next request;
`fetchResult n` is what the `n`-th `fetch_url_json` call yields and
`dur n` how long it takes. Each iteration computes `left_time`, sleeps
`max(min(delay, left_time), 0)`, issues the request, returns on a
satisfied predicate, and only then checks `left_time < delay`. The `fuel`
argument bounds the number of iterations so the function is total; it is
not part of the modelled code. -/
def pollLoop (fetchResult : Nat → Except FailureKind FetchOutcome) (dur : Nat → Int)
    (check_done_callback : FetchOutcome → Bool)
    (check_done_delay check_done_timeout : Int) :
    Nat → Int → Nat → Option PollTrace
  | 0, _, _ => none
  | (fuel + 1), now, n =>
    let left_time := check_done_timeout - now
    let s := pyMax (pyMin check_done_delay left_time) 0
    let t := now + s
    match fetchResult n with
    | Except.error e => some ⟨PollResult.failed e, [t], [s]⟩
    | Except.ok outcome =>
      if check_done_callback outcome then
        some ⟨PollResult.done outcome, [t], [s]⟩
      else if left_time < check_done_delay then
        some ⟨PollResult.timeout outcome, [t], [s]⟩
      else
        match pollLoop fetchResult dur check_done_callback check_done_delay
            check_done_timeout fuel (t + dur n) (n + 1) with
        | none => none
        | some tr => some ⟨tr.result, t :: tr.requestTimes, s :: tr.sleeps⟩

/-- Embedding of `fetch_url_json_with_retries` (robot.py lines 164-188).
With `skip_first` false, one request is issued immediately at elapsed time
0 (no preceding sleep); a satisfied predicate returns at once, a request
failure propagates at once, otherwise the loop starts at elapsed time
`dur 0` with request index 1. With `skip_first` true the loop starts
straight away at elapsed time 0 with request index 0. -/
def fetch_url_json_with_retries (fuel : Nat)
    (fetchResult : Nat → Except FailureKind FetchOutcome) (dur : Nat → Int)
    (check_done_callback : FetchOutcome → Bool)
    (check_done_delay check_done_timeout : Int) ( skip_first : Bool) :
    Option PollTrace :=
  if skip_first then
    pollLoop fetchResult dur check_done_callback check_done_delay check_done_timeout
      fuel 0 0
  else
    match fetchResult 0 with
    | Except.error e => some ⟨PollResult.failed e, [0], []⟩
    | Except.ok outcome =>
      if check_done_callback outcome then
        some ⟨PollResult.done outcome, [0], []⟩
      else
        match pollLoop fetchResult dur check_done_callback check_done_delay
            check_done_timeout fuel (dur 0) 1 with
        | none => none
        | some tr => some ⟨tr.result, 0 :: tr.requestTimes, tr.sleeps⟩

/-- A request sequence in which every request instantly succeeds with the
same uninteresting decoded body. -/
def alwaysOkFetch : Nat → Except FailureKind FetchOutcome :=
  fun _ => Except.ok (some ⟨none, 0⟩, none)

/-- Zero request durations: every request returns instantly. -/
def zeroDur : Nat → Int := fun _ => 0

/-- A `check_done` predicate that is never satisfied. -/
def neverDone : FetchOutcome → Bool := fun _ => false

/-- A `check_done` predicate that is satisfied by any outcome. -/
def alwaysDone : FetchOutcome → Bool := fun _ => true

/-- A request sequence whose first two requests succeed (with a body the
predicate rejects) and whose third hits a hard transport failure. -/
def failAtTwoFetch : Nat → Except FailureKind FetchOutcome :=
  fun n =>
    if n < 2 then Except.ok (some ⟨none, 0⟩, none)
    else Except.error (FailureKind.transportFailure "url" "connection refused")

/-- An API error payload with an accepted-style code and no optional
fields, used to exercise the accept-list path. -/
def sampleApiError : ApiError :=
  ⟨409, "RATE_LIMIT", "rate limit exceeded", none, none, none, none⟩

/-- Invariant of the poller loop: a finished run issued at least one
request; if it ended by propagating a failure, that failure is exactly the
outcome of the last request issued; and every request except the last came
back successfully with the predicate unsatisfied. -/
theorem pollLoop_spec (fetchResult : Nat → Except FailureKind FetchOutcome)
    (dur : Nat → Int) (cb : FetchOutcome → Bool) (delay timeout : Int) :
    ∀ fuel now n tr, pollLoop fetchResult dur cb delay timeout fuel now n = some tr →
      1 ≤ tr.requestTimes.length ∧
      (∀ e, tr.result = PollResult.failed e →
        fetchResult (n + tr.requestTimes.length - 1) = Except.error e) ∧
      (∀ j, j + 1 < tr.requestTimes.length →
        ∃ o, fetchResult (n + j) = Except.ok o ∧ cb o = false) := by
  intro fuel
  induction fuel with
  | zero =>
    intro now n tr h
    exact absurd h (by simp [pollLoop])
  | succ fuel ih =>
    intro now n tr h
    simp only [pollLoop] at h
    cases hf : fetchResult n with
    | error e0 =>
      rw [hf] at h
      cases h
      refine ⟨by simp, ?_, ?_⟩
      · intro e he
        cases he
        simpa using hf
      · intro j hj
        simp at hj
    | ok o =>
      rw [hf] at h
      dsimp only at h
      by_cases hc : cb o = true
      · rw [if_pos hc] at h
        cases h
        refine ⟨by simp, ?_, ?_⟩
        · intro e he
          cases he
        · intro j hj
          simp at hj
      · rw [if_neg hc] at h
        by_cases ht : timeout - now < delay
        · rw [if_pos ht] at h
          cases h
          refine ⟨by simp, ?_, ?_⟩
          · intro e he
            cases he
          · intro j hj
            simp at hj
        · rw [if_neg ht] at h
          cases hp : pollLoop fetchResult dur cb delay timeout fuel
              (now + pyMax (pyMin delay (timeout - now)) 0 + dur n) (n + 1) with
          | none =>
            rw [hp] at h
            simp at h
          | some tr' =>
            rw [hp] at h
            cases h
            obtain ⟨ih1, ih2, ih3⟩ := ih _ _ _ hp
            refine ⟨by simp, ?_, ?_⟩
            · intro e he
              have h2 := ih2 e he
              have hidx : n + (tr'.requestTimes.length + 1) - 1 =
                  n + 1 + tr'.requestTimes.length - 1 := by omega
              simpa [hidx] using h2
            · intro j hj
              simp only [List.length_cons] at hj
              cases j with
              | zero =>
                refine ⟨o, by simpa using hf, ?_⟩
                simpa using hc
              | succ j =>
                have h3 := ih3 j (by omega)
                have hidx : n + (j + 1) = n + 1 + j := by omega
                rw [hidx]
                exact h3

/-- Claim C7 (counterexample): an ApiError whose `missing` field is present
but holds the empty list gets no "Missing input parameters" clause — the
code gates the clause on Python truthiness of `error.get('missing')`, not
on mere presence of the field, refuting the claim as stated. -/
theorem claim7_counterexample :
    format_error_msg ⟨500, "CODE", "msg", some (PyVal.list []), none, none, none⟩ =
      "Request failed: 500 CODE (msg)" ∧
    (⟨500, "CODE", "msg", some (PyVal.list []), none, none, none⟩ : ApiError).missing ≠ none :=
  ⟨rfl, fun h => Option.noConfusion h⟩

/-- Claim C7 (amended): the formatted message starts with
"Request failed: {status} {code} ({message})" and appends, in the fixed
order missing, invalid, max_request, interval, exactly those optional
clauses whose field is present and truthy for missing/invalid
(in particular non-empty), respectively present for max_request/interval;
in particular an ApiError with only status, code, message set gives no
trailing clauses, and missing=["a","b"] gives exactly the clause
". Missing input parameters: ['a', 'b']" with order preserved. -/
theorem claim7_spec :
    (∀ e : ApiError, format_error_msg e =
      "Request failed: " ++ toString e.status ++ " " ++ e.code ++ " (" ++ e.message ++ ")"
      ++ (if pyTruthy e.missing then
            ". Missing input parameters: " ++ pyFmtStr (e.missing.getD (PyVal.list []))
          else "")
      ++ (if pyTruthy e.invalid then
            ". Invalid input parameters: " ++ pyFmtStr (e.invalid.getD (PyVal.list []))
          else "")
      ++ (if e.max_request.isSome then
            ". Maximum allowed requests: " ++ toString (e.max_request.getD 0)
          else "")
      ++ (if e.interval.isSome then
            ". Time interval in seconds: " ++ toString (e.interval.getD 0)
          else "")) ∧
    (∀ (st : Int) (c m : String), format_error_msg ⟨st, c, m, none, none, none, none⟩ =
      "Request failed: " ++ toString st ++ " " ++ c ++ " (" ++ m ++ ")") ∧
    (∀ (st : Int) (c m : String),
      format_error_msg ⟨st, c, m, some (PyVal.list [PyVal.str "a", PyVal.str "b"]),
          none, none, none⟩ =
        "Request failed: " ++ toString st ++ " " ++ c ++ " (" ++ m ++ ")"
          ++ ". Missing input parameters: ['a', 'b']") := by
  refine ⟨fun e => ?_, fun st c m => rfl, fun st c m => rfl⟩
  unfold format_error_msg
  by_cases h1 : pyTruthy e.missing <;> by_cases h2 : pyTruthy e.invalid <;>
    by_cases h3 : e.max_request.isSome <;> by_cases h4 : e.interval.isSome <;>
      simp [h1, h2, h3, h4, String.append_empty]

/-- Claim C8 (confirmed): for every ApiError (any status, code, message,
missing, invalid and any state of the other gated field) whose
`max_request` field is set to 0 and/or whose `interval` field is set to 0,
the formatted message still contains the ". Maximum allowed requests: 0"
and/or ". Time interval in seconds: 0" clause respectively — the gate is
`error.get(...) is not None`, so a present falsy value is still rendered. -/
theorem claim8_spec :
    ∀ (st : Int) (c m : String) (mi iv : Option PyVal) (n4 : Option Int),
      (∃ a b, format_error_msg ⟨st, c, m, mi, iv, some 0, n4⟩ =
        (a ++ ". Maximum allowed requests: 0") ++ b) ∧
      (∀ n3 : Option Int, ∃ a, format_error_msg ⟨st, c, m, mi, iv, n3, some 0⟩ =
        a ++ ". Time interval in seconds: 0") ∧
      (∃ a, format_error_msg ⟨st, c, m, mi, iv, some 0, some 0⟩ =
        (a ++ ". Maximum allowed requests: 0") ++ ". Time interval in seconds: 0") := by
  intro st c m mi iv n4
  refine ⟨?_, fun n3 => ⟨_, rfl⟩, ⟨_, rfl⟩⟩
  cases n4 with
  | some v4 => exact ⟨_, _, rfl⟩
  | none =>
    refine ⟨format_error_msg ⟨st, c, m, mi, iv, none, none⟩, "", ?_⟩
    rw [String.append_empty]
    rfl

/-- Claim C9 (confirmed): the form-encoding helper maps a singleton list
to the single `key[]` entry and a longer list to the `key[i]` entries in
list order (`(range n).zip` pairs index `i` with the `i`-th value). -/
theorem claim9_spec :
    ∀ (α : Type) (key : String) (v : α) (vs : List α),
      get_x_www_form_urlenconded_dict_from_list key [v] = [(key ++ "[]", v)] ∧
      (2 ≤ vs.length →
        get_x_www_form_urlenconded_dict_from_list key vs =
          ((List.range vs.length).zip vs).map
            (fun p => (key ++ "[" ++ toString p.1 ++ "]", p.2))) := by
  intro α key v vs
  refine ⟨rfl, fun h => ?_⟩
  cases vs with
  | nil => exact absurd h (by simp)
  | cons a t =>
    cases t with
    | nil => exact absurd h (by simp)
    | cons b u =>
      have hdef : get_x_www_form_urlenconded_dict_from_list key (a :: b :: u) =
          (a :: b :: u).enum.map (fun p => (key ++ "[" ++ toString p.1 ++ "]", p.2)) := rfl
      rw [hdef, List.enum_eq_zip_range]

/-- Claim C9 witness: the two-element list at key "k" yields the indexed
entries in order. -/
theorem claim9_witness :
    get_x_www_form_urlenconded_dict_from_list "k" ["a", "b"] =
      ((List.range (["a", "b"] : List String).length).zip ["a", "b"]).map
        (fun p => ("k" ++ "[" ++ toString p.1 ++ "]", p.2)) :=
  (claim9_spec String "k" "a" ["a", "b"]).2 (by decide)

/-- Claim C4 (confirmed): a parsed body with an `error` member either
returns the full body paired with the error code when that code is in the
caller's accept list, or fails with ApiFailure whose message is exactly
the error formatter's output, in both executors. -/
theorem claim4_spec :
    ∀ (url : String) (status : Int) (r : ParsedBody) (err : ApiError)
      (accept_errors : Option (List String)) (allow : Bool) (codes : List Int),
      r.error = some err →
      (∀ l, accept_errors = some l → err.code ∈ l →
        plugin_open_url_json url (OpenUrlResult.success status (Body.parsed r))
            accept_errors allow codes = Except.ok (some r, some err.code) ∧
        fetch_url_json url (some (Body.parsed r)) ⟨status, none⟩
            accept_errors allow codes = Except.ok (some r, some err.code)) ∧
      ((∀ l, accept_errors = some l → err.code ∉ l) →
        plugin_open_url_json url (OpenUrlResult.success status (Body.parsed r))
            accept_errors allow codes =
          Except.error (FailureKind.apiFailure (format_error_msg err) err) ∧
        fetch_url_json url (some (Body.parsed r)) ⟨status, none⟩
            accept_errors allow codes =
          Except.error (FailureKind.apiFailure (format_error_msg err) err)) := by
  intro url status r err accept_errors allow codes herr
  have hc : handle_content url status (Body.parsed r) accept_errors allow codes =
      (match accept_errors with
       | some l =>
         if err.code ∈ l then
           (Except.ok (some r, some err.code) : Except FailureKind FetchOutcome)
         else Except.error (FailureKind.apiFailure (format_error_msg err) err)
       | none => Except.error (FailureKind.apiFailure (format_error_msg err) err)) := by
    unfold handle_content
    dsimp only
    rw [herr]
  have e1 : plugin_open_url_json url (OpenUrlResult.success status (Body.parsed r))
      accept_errors allow codes =
      handle_content url status (Body.parsed r) accept_errors allow codes := rfl
  have e2 : fetch_url_json url (some (Body.parsed r)) ⟨status, none⟩
      accept_errors allow codes =
      handle_content url status (Body.parsed r) accept_errors allow codes := rfl
  constructor
  · intro l hl hmem
    rw [e1, e2, hc, hl]
    dsimp only
    rw [if_pos hmem]
    exact ⟨rfl, rfl⟩
  · intro hno
    rw [e1, e2, hc]
    cases haccept : accept_errors with
    | none => exact ⟨rfl, rfl⟩
    | some l =>
      dsimp only
      rw [if_neg (hno l haccept)]
      exact ⟨rfl, rfl⟩

/-- Claim C4 witness: an accepted RATE_LIMIT error is returned with the
full body by both executors. -/
theorem claim4_witness :
    plugin_open_url_json "u" (OpenUrlResult.success 409 (Body.parsed ⟨some sampleApiError, 7⟩))
        (some ["RATE_LIMIT"]) false [200, 204] =
      Except.ok (some ⟨some sampleApiError, 7⟩, some "RATE_LIMIT") ∧
    fetch_url_json "u" (some (Body.parsed ⟨some sampleApiError, 7⟩)) ⟨409, none⟩
        (some ["RATE_LIMIT"]) false [200, 204] =
      Except.ok (some ⟨some sampleApiError, 7⟩, some "RATE_LIMIT") :=
  (claim4_spec "u" 409 ⟨some sampleApiError, 7⟩ sampleApiError
      (some ["RATE_LIMIT"]) false [200, 204] rfl).1 ["RATE_LIMIT"] rfl (by decide)

/-- Claim C5 (confirmed): an empty body returns `(None, None)` exactly
when empty results are allowed and the status is in the allowed set, and
otherwise fails with EmptyResponse carrying the URL and status, in both
executors. -/
theorem claim5_spec :
    ∀ (url : String) (status : Int) (accept_errors : Option (List String))
      (allow : Bool) (codes : List Int),
      ((allow = true ∧ status ∈ codes) →
        plugin_open_url_json url (OpenUrlResult.success status Body.empty)
            accept_errors allow codes = Except.ok (none, none) ∧
        fetch_url_json url (some Body.empty) ⟨status, none⟩
            accept_errors allow codes = Except.ok (none, none)) ∧
      (¬(allow = true ∧ status ∈ codes) →
        plugin_open_url_json url (OpenUrlResult.success status Body.empty)
            accept_errors allow codes =
          Except.error (FailureKind.emptyResponse url status) ∧
        fetch_url_json url (some Body.empty) ⟨status, none⟩
            accept_errors allow codes =
          Except.error (FailureKind.emptyResponse url status)) := by
  intro url status accept_errors allow codes
  have e1 : plugin_open_url_json url (OpenUrlResult.success status Body.empty)
      accept_errors allow codes =
      (if allow = true ∧ status ∈ codes then
        (Except.ok (none, none) : Except FailureKind FetchOutcome)
      else Except.error (FailureKind.emptyResponse url status)) := rfl
  have e2 : fetch_url_json url (some Body.empty) ⟨status, none⟩
      accept_errors allow codes =
      (if allow = true ∧ status ∈ codes then
        (Except.ok (none, none) : Except FailureKind FetchOutcome)
      else Except.error (FailureKind.emptyResponse url status)) := rfl
  constructor
  · intro h
    rw [e1, e2, if_pos h]
    exact ⟨rfl, rfl⟩
  · intro h
    rw [e1, e2, if_neg h]
    exact ⟨rfl, rfl⟩

/-- Claim C5 witness: empty body with status 204, empty results allowed
and 204 in the allowed set, yields `(None, None)` in both executors. -/
theorem claim5_witness :
    plugin_open_url_json "u" (OpenUrlResult.success 204 Body.empty) none true [200, 204] =
      Except.ok (none, none) ∧
    fetch_url_json "u" (some Body.empty) ⟨204, none⟩ none true [200, 204] =
      Except.ok (none, none) :=
  (claim5_spec "u" 204 none true [200, 204]).1 ⟨rfl, by decide⟩

/-- Claim C6 (confirmed): an HTTPError whose body is readable flows
through exactly the same path as a normal response with that status and
body, and any other transport exception fails with TransportFailure
carrying the URL and the original cause. -/
theorem claim6_spec :
    ∀ (url : String) (status : Int) (content : Body)
      (accept_errors : Option (List String)) (allow : Bool) (codes : List Int)
      (cause : String),
      plugin_open_url_json url (OpenUrlResult.httpError status (some content))
          accept_errors allow codes =
        plugin_open_url_json url (OpenUrlResult.success status content)
          accept_errors allow codes ∧
      plugin_open_url_json url (OpenUrlResult.failure cause) accept_errors allow codes =
        Except.error (FailureKind.transportFailure url cause) :=
  fun _ _ _ _ _ _ _ => ⟨rfl, rfl⟩

/-- Claim C10 (confirmed): an HTTPError whose body cannot be read is
treated as an empty body — `(None, None)` when allowed, otherwise an
EmptyResponse failure reporting the error's status, never a
TransportFailure — identically to a normal empty response. -/
theorem claim10_spec :
    ∀ (url : String) (status : Int) (accept_errors : Option (List String))
      (allow : Bool) (codes : List Int),
      plugin_open_url_json url (OpenUrlResult.httpError status none)
          accept_errors allow codes =
        (if allow = true ∧ status ∈ codes then Except.ok (none, none)
         else Except.error (FailureKind.emptyResponse url status)) ∧
      plugin_open_url_json url (OpenUrlResult.httpError status none)
          accept_errors allow codes =
        plugin_open_url_json url (OpenUrlResult.success status Body.empty)
          accept_errors allow codes :=
  fun _ _ _ _ _ => ⟨rfl, rfl⟩

/-- Claim C1 (counterexample): with `delay_seconds=10`, `timeout_seconds=25`,
`skip_first=False`, a predicate that is never satisfied and instant
requests, the poller issues FOUR requests, at elapsed times 0, 10, 20 and
25 — not three; in particular a 4th attempt is made at elapsed time 25,
refuting "exactly 3 request attempts" and "no 4th attempt is ever made
once elapsed time is at least 25 seconds". -/
theorem claim1_counterexample :
    (fetch_url_json_with_retries 10 alwaysOkFetch zeroDur neverDone 10 25 false).map
        (fun tr => tr.requestTimes) = some [0, 10, 20, 25] := rfl

/-- Claim C1 (amended): with `delay_seconds=10`, `timeout_seconds=25`,
`skip_first=False`, a predicate that is never satisfied and instant
requests, the poller issues exactly 4 request attempts, at elapsed times
0, 10, 20 and 25 (sleeping 10, 10 and 5 seconds between them), and then
raises the poll-timeout exception carrying the last outcome; no 5th
attempt is made. -/
theorem claim1_spec :
    fetch_url_json_with_retries 10 alwaysOkFetch zeroDur neverDone 10 25 false =
      some ⟨PollResult.timeout (some ⟨none, 0⟩, none), [0, 10, 20, 25], [10, 10, 5]⟩ := rfl

/-- Claim C2 (counterexample): with `skip_first=True`, `delay_seconds=10`,
`timeout_seconds=25` and a predicate satisfied by the first probe, exactly
one request is made — but a 10-second sleep occurs BEFORE that request
(the loop body sleeps before probing), refuting "no sleep occurs before
that request". -/
theorem claim2_counterexample :
    fetch_url_json_with_retries 1 alwaysOkFetch zeroDur alwaysDone 10 25 true =
      some ⟨PollResult.done (some ⟨none, 0⟩, none), [10], [10]⟩ ∧
    (fetch_url_json_with_retries 1 alwaysOkFetch zeroDur alwaysDone 10 25 true).map
        (fun tr => tr.sleeps) ≠ some [] :=
  ⟨rfl, by decide⟩

/-- Claim C2 (amended): with `skip_first=True` and a predicate satisfied by
the first probe performed inside the loop, exactly one request is made,
and it is preceded by exactly one sleep, of
`max(min(delay_seconds, timeout_seconds), 0)` seconds. -/
theorem claim2_spec :
    ∀ (fetchResult : Nat → Except FailureKind FetchOutcome) (dur : Nat → Int)
      (cb : FetchOutcome → Bool) (delay timeout : Int) (outcome : FetchOutcome)
      (fuel : Nat),
      fetchResult 0 = Except.ok outcome → cb outcome = true →
      fetch_url_json_with_retries (fuel + 1) fetchResult dur cb delay timeout true =
        some ⟨PollResult.done outcome, [pyMax (pyMin delay timeout) 0],
          [pyMax (pyMin delay timeout) 0]⟩ := by
  intro fetchResult dur cb delay timeout outcome fuel h1 h2
  show pollLoop fetchResult dur cb delay timeout (fuel + 1) 0 0 = _
  simp only [pollLoop, h1, h2, sub_zero, zero_add, if_true]

/-- Claim C2 witness: the amended claim at the concrete scenario
`delay=10`, `timeout=25`: one sleep of 10 seconds, then the single
request, then success. -/
theorem claim2_witness :
    fetch_url_json_with_retries 1 alwaysOkFetch zeroDur alwaysDone 10 25 true =
      some ⟨PollResult.done (some ⟨none, 0⟩, none), [pyMax (pyMin 10 25) 0],
        [pyMax (pyMin 10 25) 0]⟩ :=
  claim2_spec alwaysOkFetch zeroDur alwaysDone 10 25 (some ⟨none, 0⟩, none) 0 rfl rfl

/-- Claim C3 (confirmed): whenever a poller run ends by propagating a
failure, that failure is exactly the outcome of the last request issued —
no further request is attempted after it — and every earlier request came
back successfully with the predicate returning false (only unsatisfied
predicates are retried, never request failures). -/
theorem claim3_spec :
    ∀ (fuel : Nat) (fetchResult : Nat → Except FailureKind FetchOutcome)
      (dur : Nat → Int) (cb : FetchOutcome → Bool) (delay timeout : Int)
      ( skip_first : Bool) (tr : PollTrace) (e : FailureKind),
      fetch_url_json_with_retries fuel fetchResult dur cb delay timeout skip_first =
        some tr →
      tr.result = PollResult.failed e →
      fetchResult (tr.requestTimes.length - 1) = Except.error e ∧
      ∀ j, j + 1 < tr.requestTimes.length →
        ∃ o, fetchResult j = Except.ok o ∧ cb o = false := by
  intro fuel fetchResult dur cb delay timeout skip_first tr e hrun hfail
  cases skip_first with
  | true =>
    replace hrun : pollLoop fetchResult dur cb delay timeout fuel 0 0 = some tr := hrun
    obtain ⟨h1, h2, h3⟩ := pollLoop_spec fetchResult dur cb delay timeout _ _ _ _ hrun
    refine ⟨by simpa using h2 e hfail, ?_⟩
    intro j hj
    simpa using h3 j hj
  | false =>
    replace hrun :
        (match fetchResult 0 with
         | Except.error e0 => some ⟨PollResult.failed e0, [0], []⟩
         | Except.ok outcome =>
           if cb outcome = true then some ⟨PollResult.done outcome, [0], []⟩
           else
             match pollLoop fetchResult dur cb delay timeout fuel (dur 0) 1 with
             | none => none
             | some tr' => some ⟨tr'.result, 0 :: tr'.requestTimes, tr'.sleeps⟩) =
          some tr := hrun
    cases hf0 : fetchResult 0 with
    | error e0 =>
      rw [hf0] at hrun
      cases hrun
      cases hfail
      refine ⟨by simpa using hf0, ?_⟩
      intro j hj
      simp at hj
    | ok o0 =>
      rw [hf0] at hrun
      dsimp only at hrun
      by_cases hc : cb o0 = true
      · rw [if_pos hc] at hrun
        cases hrun
        cases hfail
      · rw [if_neg hc] at hrun
        cases hp : pollLoop fetchResult dur cb delay timeout fuel (dur 0) 1 with
        | none =>
          rw [hp] at hrun
          simp at hrun
        | some tr' =>
          rw [hp] at hrun
          cases hrun
          obtain ⟨h1, h2, h3⟩ := pollLoop_spec fetchResult dur cb delay timeout _ _ _ _ hp
          have hfail' : tr'.result = PollResult.failed e := hfail
          constructor
          · have h2e := h2 e hfail'
            have hidx : 1 + tr'.requestTimes.length - 1 = tr'.requestTimes.length := by
              omega
            rw [hidx] at h2e
            simpa using h2e
          · intro j hj
            simp only [List.length_cons] at hj
            cases j with
            | zero =>
              refine ⟨o0, hf0, ?_⟩
              simpa using hc
            | succ j =>
              have h3j := h3 j (by omega)
              have hidx : 1 + j = j + 1 := by omega
              rw [hidx] at h3j
              exact h3j

/-- Claim C3 witness: in the run where the third request hits a transport
failure, the poller's trace ends at that third request (index 2) with that
failure propagated. -/
theorem claim3_witness :
    failAtTwoFetch 2 =
      Except.error (FailureKind.transportFailure "url" "connection refused") :=
  (claim3_spec 5 failAtTwoFetch zeroDur neverDone 10 25 false
    ⟨PollResult.failed (FailureKind.transportFailure "url" "connection refused"),
      [0, 10, 20], [10, 10]⟩
    (FailureKind.transportFailure "url" "connection refused") rfl rfl).1
